import Mathlib

/-!
Verification development for the `vitamind` solar-geometry engine
(`src/utils/solarCalculations.js`).

The engine calls the external npm library `suncalc` (not part of this
repository); it is modelled below as an abstract interface `SunCalcLib`.
Instants are integer milliseconds since the Unix epoch, exactly as JS
`Date.getTime()`.  Angles are rationals; the field `altitudeDeg t lat lng`
stands for the composite expression
`SunCalc.getPosition(t, lat, lng).altitude * 180 / Math.PI` that every
call site of the engine computes (the engine never uses the raw radian
value on its own), so the threshold comparisons `altitudeDegrees >= 45`
of the source become `45 ≤ altitudeDeg …` here.
-/

namespace VitaminD

/-- Milliseconds since the Unix epoch, as JS `Date.getTime()`. -/
abbrev Instant := Int

def msPerMinute : Int := 60000
def msPerHour : Int := 3600000
def msPerDay : Int := 86400000

/-- The fields of the object returned by `SunCalc.getTimes` that the engine
reads.  `none` stands for a field that is absent or an invalid `Date`
(falsy / NaN-timed, which the source's `if (solarNoon)` and
`instanceof Date && … > …` tests reject). -/
structure SunTimes where
  solarNoon : Option Instant
  sunrise : Option Instant
  sunset : Option Instant

/-- Abstract model of the external `suncalc` npm library (a dependency, not
code of this repository).  `altitudeDeg t lat lng` is
`getPosition(t, lat, lng).altitude * 180 / Math.PI`, the sun's altitude in
degrees.  `alt_bounded` records the library's contract that the altitude is
an arcsine result, i.e. lies in [-90°, 90°]. -/
structure SunCalcLib where
  getTimes : Instant → ℚ → ℚ → SunTimes
  altitudeDeg : Instant → ℚ → ℚ → ℚ
  alt_bounded : ∀ t lat lng, |altitudeDeg t lat lng| ≤ 90

/-- `d.setUTCHours(0,0,0,0)`: normalize an instant to the start of its UTC
day (floor to a multiple of 86400000 ms). -/
def floorToUTCDay (t : Instant) : Instant := msPerDay * (t / msPerDay)

/-- `addDays` of the source: `setUTCDate(getUTCDate() + days)`, which in UTC
adds exactly `days`·86400000 ms. -/
def addDays (t : Instant) (days : Int) : Instant := t + days * msPerDay

/-- JS `Math.round`: round half toward +∞. -/
def jsRound (q : ℚ) : Int := ⌊q + 1 / 2⌋

/-- The numeric value of JS `x.toFixed(2)` (round to a multiple of 1/100,
ties away from the smaller value), as read back by `parseFloat`. -/
def jsToFixed2 (q : ℚ) : ℚ := (jsRound (q * 100) : ℚ) / 100

/-- `date.getUTCHours() + date.getUTCMinutes()/60 + date.getUTCSeconds()/3600`
of the source (milliseconds are truncated, as in the source). -/
def jsUTCHours (t : Instant) : ℚ :=
  let s := t % msPerDay
  ((s / msPerHour : Int) : ℚ) + ((s % msPerHour / msPerMinute : Int) : ℚ) / 60
    + ((s % msPerMinute / 1000 : Int) : ℚ) / 3600

/-- The `"<h>h <m>m"` duration strings of the source. -/
def fmtHM (hours minutes : Int) : String :=
  hours.repr ++ "h " ++ minutes.repr ++ "m"

/-- First index `i ≤ j < i + fuel` with `p j`, scanning upward: the
`for`-loop-with-`break` pattern of the source's day, minute and recession
scans. -/
def findFirst (p : Nat → Bool) : Nat → Nat → Option Nat
  | 0, _ => none
  | fuel + 1, i => if p i then some i else findFirst p fuel (i + 1)

/-- Last index `j < n` with `p j`: the source's minute loop keeps
overwriting `endTimeAbove45` at every qualifying minute, so the final value
is the last qualifying index. -/
def findLast (p : Nat → Bool) : Nat → Option Nat
  | 0 => none
  | n + 1 => if p n then some n else findLast p n

theorem findFirst_eq_some {p : Nat → Bool} {fuel i j : Nat} :
    findFirst p fuel i = some j ↔
      i ≤ j ∧ j < i + fuel ∧ p j = true ∧ ∀ k, i ≤ k → k < j → p k = false := by
  induction fuel generalizing i with
  | zero =>
    constructor
    · intro h; exact absurd h (by simp [findFirst])
    · rintro ⟨h1, h2, -, -⟩; exact absurd h2 (by omega)
  | succ fuel ih =>
    cases hp : p i with
    | true =>
      rw [findFirst, if_pos hp]
      constructor
      · intro h
        have hij : i = j := Option.some.inj h
        subst hij
        exact ⟨le_rfl, by omega, hp, fun k hk1 hk2 => absurd hk2 (by omega)⟩
      · rintro ⟨h1, h2, h3, h4⟩
        rcases Nat.eq_or_lt_of_le h1 with h | h
        · rw [h]
        · exact absurd (h4 i le_rfl h) (by simp [hp])
    | false =>
      rw [findFirst, if_neg (by simp [hp]), ih]
      constructor
      · rintro ⟨h1, h2, h3, h4⟩
        refine ⟨by omega, by omega, h3, fun k hk1 hk2 => ?_⟩
        rcases Nat.eq_or_lt_of_le hk1 with h | h
        · rw [← h]; exact hp
        · exact h4 k h hk2
      · rintro ⟨h1, h2, h3, h4⟩
        have hij : i ≠ j := fun h => by rw [← h, hp] at h3; exact Bool.false_ne_true h3
        exact ⟨by omega, by omega, h3, fun k hk1 hk2 => h4 k (by omega) hk2⟩

theorem findFirst_eq_none {p : Nat → Bool} {fuel i : Nat} :
    findFirst p fuel i = none ↔ ∀ k, i ≤ k → k < i + fuel → p k = false := by
  induction fuel generalizing i with
  | zero =>
    constructor
    · intro _ k hk1 hk2; exact absurd hk2 (by omega)
    · intro _; rfl
  | succ fuel ih =>
    cases hp : p i with
    | true =>
      rw [findFirst, if_pos hp]
      constructor
      · intro h; exact absurd h (by simp)
      · intro h; rw [h i le_rfl (by omega)] at hp; exact absurd hp (by simp)
    | false =>
      rw [findFirst, if_neg (by simp [hp]), ih]
      constructor
      · intro h k hk1 hk2
        rcases Nat.eq_or_lt_of_le hk1 with h' | h'
        · rw [← h']; exact hp
        · exact h k h' (by omega)
      · intro h k hk1 hk2; exact h k (by omega) (by omega)

theorem findLast_eq_some {p : Nat → Bool} {n j : Nat} :
    findLast p n = some j ↔
      j < n ∧ p j = true ∧ ∀ k, j < k → k < n → p k = false := by
  induction n with
  | zero =>
    constructor
    · intro h; exact absurd h (by simp [findLast])
    · rintro ⟨h1, -, -⟩; exact absurd h1 (by omega)
  | succ n ih =>
    cases hp : p n with
    | true =>
      rw [findLast, if_pos hp]
      constructor
      · intro h
        have hnj : n = j := Option.some.inj h
        subst hnj
        exact ⟨by omega, hp, fun k hk1 hk2 => absurd hk1 (by omega)⟩
      · rintro ⟨h1, h2, h3⟩
        rcases Nat.lt_succ_iff_lt_or_eq.mp h1 with h | h
        · exact absurd (h3 n h (by omega)) (by simp [hp])
        · rw [h]
    | false =>
      rw [findLast, if_neg (by simp [hp]), ih]
      constructor
      · rintro ⟨h1, h2, h3⟩
        refine ⟨by omega, h2, fun k hk1 hk2 => ?_⟩
        by_cases hkn : k = n
        · rw [hkn]; exact hp
        · exact h3 k hk1 (by omega)
      · rintro ⟨h1, h2, h3⟩
        have hjn : j ≠ n := fun h => by rw [h, hp] at h2; exact Bool.false_ne_true h2
        exact ⟨by omega, h2, fun k hk1 hk2 => h3 k hk1 (by omega)⟩

theorem findLast_eq_none {p : Nat → Bool} {n : Nat} :
    findLast p n = none ↔ ∀ k, k < n → p k = false := by
  induction n with
  | zero =>
    constructor
    · intro _ k hk; exact absurd hk (by omega)
    · intro _; rfl
  | succ n ih =>
    cases hp : p n with
    | true =>
      rw [findLast, if_pos hp]
      constructor
      · intro h; exact absurd h (by simp)
      · intro h; rw [h n (by omega)] at hp; exact absurd hp (by simp)
    | false =>
      rw [findLast, if_neg (by simp [hp]), ih]
      constructor
      · intro h k hk
        by_cases hkn : k = n
        · rw [hkn]; exact hp
        · exact h k (by omega)
      · intro h k hk; exact h k (by omega)

/-! ## The engine of `solarCalculations.js` -/

/-- Result record of `getSunStats`.  `highestSunAngle` is the numeric value
of the source's `highestSunAngle.toFixed(2)` string; `solarNoon` is the
instant the source hands to `formatTime` (the locale-dependent clock string
itself is not modelled). -/
structure SunStats where
  highestSunAngle : ℚ
  solarNoon : Option Instant
  dayLength : String
deriving DecidableEq

/-- `calculateDayLength` of the source: if both sunrise and sunset are valid
with sunset after sunrise, format their difference; otherwise fall back on
the sign of the (formatted) highest sun angle. -/
def calculateDayLength (times : SunTimes) (highestSunAngle : ℚ) : String :=
  match times.sunrise, times.sunset with
  | some sunrise, some sunset =>
      if sunrise < sunset then
        let diff := sunset - sunrise
        fmtHM (diff / msPerHour) (diff % msPerHour / msPerMinute)
      else if 0 < highestSunAngle then "24h 0m" else "0h 0m"
  | _, _ => if 0 < highestSunAngle then "24h 0m" else "0h 0m"

/-- `getSunStats` of the source. -/
def getSunStats (S : SunCalcLib) (latitude longitude : ℚ) (date : Instant) : SunStats :=
  let times := S.getTimes date latitude longitude
  let highestSunAngle : ℚ :=
    match times.solarNoon with
    | some solarNoon => max 0 (S.altitudeDeg solarNoon latitude longitude)
    | none => 0
  let formattedHighestSunAngle := jsToFixed2 highestSunAngle
  { highestSunAngle := formattedHighestSunAngle
    solarNoon := times.solarNoon
    dayLength := calculateDayLength times formattedHighestSunAngle }

/-- The day-scan test of `getVitaminDInfo`: the day's solar noon exists and
the altitude there is at least 45 degrees (inclusive comparison `>=`). -/
def noonQualifies (S : SunCalcLib) (latitude longitude : ℚ) (day : Instant) : Bool :=
  match (S.getTimes day latitude longitude).solarNoon with
  | some solarNoon => decide (45 ≤ S.altitudeDeg solarNoon latitude longitude)
  | none => false

/-- The recession-scan value of `getVitaminDInfo`: the noon altitude of the
day, with `highestFutureAngle = 0` when the solar noon is missing. -/
def highestFutureAngle (S : SunCalcLib) (latitude longitude : ℚ) (day : Instant) : ℚ :=
  match (S.getTimes day latitude longitude).solarNoon with
  | some solarNoon => S.altitudeDeg solarNoon latitude longitude
  | none => 0

/-- The minute-scan test of `getVitaminDInfo`: altitude at minute `m` of the
day starting at `startOfDay` is at least 45 degrees (inclusive `>=`). -/
def minuteAbove45 (S : SunCalcLib) (latitude longitude : ℚ) (startOfDay : Instant)
    (m : Nat) : Bool :=
  decide (45 ≤ S.altitudeDeg (startOfDay + (m : Int) * msPerMinute) latitude longitude)

/-- The day scan of `getVitaminDInfo`: `for (let i = 0; i < 366; i++)` with
`break` at the first day whose noon altitude is `>= 45`. -/
def dayScanResult (S : SunCalcLib) (latitude longitude : ℚ) (today : Instant) : Option Nat :=
  findFirst (fun i => noonQualifies S latitude longitude (addDays today (i : Int))) 366 0

/-- The recession scan of `getVitaminDInfo`:
`for (let i = 1; i < 366; i++)` with `break` at the first day whose
`highestFutureAngle` is `< 45`. -/
def recessionScan (S : SunCalcLib) (latitude longitude : ℚ) (today : Instant) : Option Nat :=
  findFirst
    (fun j => decide (highestFutureAngle S latitude longitude (addDays today (j : Int)) < 45))
    365 1

/-- Result record of `getVitaminDInfo`. -/
structure VitaminDInfo where
  vitaminDDate : Option Instant
  daysUntilVitaminD : Nat
  startTimeAbove45 : Option Instant
  endTimeAbove45 : Option Instant
  durationAbove45 : Option String
  daysUntilBelow45 : Option Nat
deriving DecidableEq

/-- `getVitaminDInfo` of the source. -/
def getVitaminDInfo (S : SunCalcLib) (latitude longitude : ℚ) (startDate : Instant) :
    VitaminDInfo :=
  let today := floorToUTCDay startDate
  match dayScanResult S latitude longitude today with
  | none => ⟨none, 0, none, none, none, none⟩
  | some i =>
      let vitaminDDate := addDays today (i : Int)
      let startOfDay := floorToUTCDay vitaminDDate
      let startM := findFirst (minuteAbove45 S latitude longitude startOfDay) 1440 0
      let endM := findLast (minuteAbove45 S latitude longitude startOfDay) 1440
      let startTimeAbove45 := startM.map (fun (m : Nat) => startOfDay + (m : Int) * msPerMinute)
      let endTimeAbove45 := endM.map (fun (m : Nat) => startOfDay + (m : Int) * msPerMinute)
      let durationAbove45 :=
        match startTimeAbove45, endTimeAbove45 with
        | some s, some e =>
            let diffMinutes := jsRound (((e - s : Int) : ℚ) / (1000 * 60))
            some (fmtHM (diffMinutes / 60) (diffMinutes % 60))
        | _, _ => none
      let daysUntilBelow45 :=
        if i = 0 then recessionScan S latitude longitude today else none
      ⟨some vitaminDDate, i, startTimeAbove45, endTimeAbove45, durationAbove45,
        daysUntilBelow45⟩

/-- A month label / angle pair of `getYearlySunData`. -/
structure MonthAngle where
  month : String
  angle : ℚ
deriving DecidableEq

def monthNames : List String :=
  ["Jan", "Feb", "Mar", "Apr", "May", "Jun", "Jul", "Aug", "Sep", "Oct", "Nov", "Dec"]

/-- Days from the epoch 1970-01-01 of the Gregorian date (`y`, `m`, `d`)
with `m` in 1..12 (civil-from-days companion below), used to model JS
`Date.UTC`. -/
def daysFromCivil (y m d : Int) : Int :=
  let y2 := if m ≤ 2 then y - 1 else y
  let era := y2 / 400
  let yoe := y2 - era * 400
  let mp := (m + 9) % 12
  let doy := (153 * mp + 2) / 5 + d - 1
  let doe := yoe * 365 + yoe / 4 - yoe / 100 + doy
  era * 146097 + doe - 719468

/-- `Date.UTC(year, monthIndex, day, hour, 0, 0)` with a 0-based
`monthIndex`, as used by `getYearlySunData`. -/
def dateUTC (year monthIndex day hour : Int) : Instant :=
  daysFromCivil year (monthIndex + 1) day * msPerDay + hour * msPerHour

/-- The Gregorian year of an instant's UTC day, modelling
`new Date().getFullYear()` (the source reads the ambient clock; the
host's local time zone is modelled as UTC). -/
def getUTCFullYear (t : Instant) : Int :=
  let z := t / msPerDay + 719468
  let era := z / 146097
  let doe := z - era * 146097
  let yoe := (doe - doe / 1460 + doe / 36524 - doe / 146096) / 365
  let y := yoe + era * 400
  let doy := doe - (365 * yoe + yoe / 4 - yoe / 100)
  let mp := (5 * doy + 2) / 153
  let m := mp + (if mp < 10 then 3 else -9)
  if m ≤ 2 then y + 1 else y

/-- `getYearlySunData` of the source.  `now` is the instant the source's
`new Date()` reads from the ambient clock: the source has no year
parameter and derives the year from the clock. -/
def getYearlySunData (S : SunCalcLib) (latitude longitude : ℚ) (now : Instant) :
    List MonthAngle :=
  let year := getUTCFullYear now
  (List.range 12).map (fun (m : Nat) =>
    let date := dateUTC year (m : Int) 15 12
    let times := S.getTimes date latitude longitude
    let solarNoon := times.solarNoon.getD date
    let angle := max 0 (S.altitudeDeg solarNoon latitude longitude)
    { month := monthNames.getD m "", angle := angle })

/-- Result of `getSubsolarPoint`: subsolar latitude (= declination in
degrees, read off as the sun's altitude at the north pole) and subsolar
longitude. -/
structure SubsolarPoint where
  lat : ℚ
  lng : ℚ
deriving DecidableEq

/-- `getSubsolarPoint` of the source. -/
def getSubsolarPoint (S : SunCalcLib) (date : Instant) : SubsolarPoint :=
  let decDeg := S.altitudeDeg date 90 0
  match (S.getTimes date 0 0).solarNoon with
  | none => ⟨decDeg, (12 - jsUTCHours date) * 15⟩
  | some solarNoonAtZero =>
      ⟨decDeg, ((solarNoonAtZero - date : Int) : ℚ) / (1000 * 60 * 60) * 15⟩

/-! ## `getVitaminDAreaGeoJSON` -/

/-- The sampled longitudes `-180, -178, …, 180` of the 2-degree sweep. -/
def sampleLngs : List Int := (List.range 181).map (fun k => -180 + 2 * (k : Int))

/-- The declination `getVitaminDAreaGeoJSON` uses for a sampled longitude:
the subsolar latitude at the longitude's local solar noon, obtained from
the day-event solver at latitude 0 (`times.solarNoon || startOfDay`). -/
def localNoonDec (S : SunCalcLib) (startOfDay : Instant) (lng : ℚ) : ℚ :=
  (getSubsolarPoint S ((S.getTimes startOfDay 0 lng).solarNoon.getD startOfDay)).lat

/-- The per-longitude band edges of `getVitaminDAreaGeoJSON`: bottom edge
`Math.max(-90, dec - 45)`, top edge `Math.min(90, dec + 45)`. -/
def bandEdges (S : SunCalcLib) (startOfDay : Instant) (lng : ℚ) : ℚ × ℚ :=
  (max (-90) (localNoonDec S startOfDay lng - 45),
   min 90 (localNoonDec S startOfDay lng + 45))

/-- The source's test
`bottomPoints[bottomPoints.length - 1][0] !== 180` deciding whether the
"ensure we hit exactly 180" push runs (the list is never empty, so the
`none` arm is unreachable). -/
def ensure180Missing (S : SunCalcLib) (startOfDay : Instant) : Bool :=
  match (sampleLngs.map
      (fun (lng : Int) => ((lng : ℚ), (bandEdges S startOfDay (lng : ℚ)).1))).getLast? with
  | some p => decide (p.1 ≠ 180)
  | none => false

/-- The coordinate content of the GeoJSON `FeatureCollection` returned by
`getVitaminDAreaGeoJSON`: the fill polygon's single ring, and the two
`MultiLineString` boundary lines.  Points are `(longitude, latitude)`
pairs, as in GeoJSON positions; the constant `type`/`properties` wrappers
carry no data and are not modelled. -/
structure VitaminDArea where
  fillRing : List (ℚ × ℚ)
  bottomBoundary : List (ℚ × ℚ)
  topBoundary : List (ℚ × ℚ)

/-- `getVitaminDAreaGeoJSON` of the source. -/
def getVitaminDAreaGeoJSON (S : SunCalcLib) (date : Instant) : VitaminDArea :=
  let startOfDay := floorToUTCDay date
  let bottom0 := sampleLngs.map
    (fun (lng : Int) => ((lng : ℚ), (bandEdges S startOfDay (lng : ℚ)).1))
  let top0 := sampleLngs.map
    (fun (lng : Int) => ((lng : ℚ), (bandEdges S startOfDay (lng : ℚ)).2))
  -- the source's "ensure we hit exactly 180" push (with the 2° resolution the
  -- last sample is already 180, so this branch never fires); the pushed
  -- points are the unclamped `dec ∓ 45`
  let extra : List (ℚ × ℚ) × List (ℚ × ℚ) :=
    if ensure180Missing S startOfDay then
      ([((180 : ℚ), localNoonDec S startOfDay 180 - 45)],
       [((180 : ℚ), localNoonDec S startOfDay 180 + 45)])
    else ([], [])
  let bottomPoints := bottom0 ++ extra.1
  let topPoints := top0 ++ extra.2
  -- `[...bottomPoints, ...[...topPoints].reverse(), bottomPoints[0]]`
  let fillRing := bottomPoints ++ topPoints.reverse ++ [bottomPoints.headD (0, 0)]
  { fillRing := fillRing, bottomBoundary := bottomPoints, topBoundary := topPoints }

/-! ## Basic lemmas about the engine -/

theorem noonQualifies_true_iff {S : SunCalcLib} {latitude longitude : ℚ} {day : Instant} :
    noonQualifies S latitude longitude day = true ↔
      ∃ noon, (S.getTimes day latitude longitude).solarNoon = some noon ∧
        45 ≤ S.altitudeDeg noon latitude longitude := by
  unfold noonQualifies
  cases h : (S.getTimes day latitude longitude).solarNoon with
  | none => simp
  | some noon => simp

theorem noonQualifies_false_iff {S : SunCalcLib} {latitude longitude : ℚ} {day : Instant} :
    noonQualifies S latitude longitude day = false ↔
      ∀ noon, (S.getTimes day latitude longitude).solarNoon = some noon →
        S.altitudeDeg noon latitude longitude < 45 := by
  unfold noonQualifies
  cases h : (S.getTimes day latitude longitude).solarNoon with
  | none => simp
  | some noon => simp

theorem getVitaminDInfo_of_dayScan_none {S : SunCalcLib} {latitude longitude : ℚ}
    {startDate : Instant}
    (h : dayScanResult S latitude longitude (floorToUTCDay startDate) = none) :
    getVitaminDInfo S latitude longitude startDate = ⟨none, 0, none, none, none, none⟩ := by
  simp only [getVitaminDInfo, h]

theorem vitaminDDate_of_dayScan_some {S : SunCalcLib} {latitude longitude : ℚ}
    {startDate : Instant} {i : Nat}
    (h : dayScanResult S latitude longitude (floorToUTCDay startDate) = some i) :
    (getVitaminDInfo S latitude longitude startDate).vitaminDDate =
      some (addDays (floorToUTCDay startDate) (i : Int)) := by
  simp only [getVitaminDInfo, h]

theorem daysUntil_of_dayScan_some {S : SunCalcLib} {latitude longitude : ℚ}
    {startDate : Instant} {i : Nat}
    (h : dayScanResult S latitude longitude (floorToUTCDay startDate) = some i) :
    (getVitaminDInfo S latitude longitude startDate).daysUntilVitaminD = i := by
  simp only [getVitaminDInfo, h]

theorem startTime_of_dayScan_some {S : SunCalcLib} {latitude longitude : ℚ}
    {startDate : Instant} {i : Nat}
    (h : dayScanResult S latitude longitude (floorToUTCDay startDate) = some i) :
    (getVitaminDInfo S latitude longitude startDate).startTimeAbove45 =
      (findFirst (minuteAbove45 S latitude longitude
          (floorToUTCDay (addDays (floorToUTCDay startDate) (i : Int)))) 1440 0).map
        (fun (m : Nat) => floorToUTCDay (addDays (floorToUTCDay startDate) (i : Int))
          + (m : Int) * msPerMinute) := by
  simp only [getVitaminDInfo, h]

theorem endTime_of_dayScan_some {S : SunCalcLib} {latitude longitude : ℚ}
    {startDate : Instant} {i : Nat}
    (h : dayScanResult S latitude longitude (floorToUTCDay startDate) = some i) :
    (getVitaminDInfo S latitude longitude startDate).endTimeAbove45 =
      (findLast (minuteAbove45 S latitude longitude
          (floorToUTCDay (addDays (floorToUTCDay startDate) (i : Int)))) 1440).map
        (fun (m : Nat) => floorToUTCDay (addDays (floorToUTCDay startDate) (i : Int))
          + (m : Int) * msPerMinute) := by
  simp only [getVitaminDInfo, h]

theorem daysUntilBelow_of_dayScan_some {S : SunCalcLib} {latitude longitude : ℚ}
    {startDate : Instant} {i : Nat}
    (h : dayScanResult S latitude longitude (floorToUTCDay startDate) = some i) :
    (getVitaminDInfo S latitude longitude startDate).daysUntilBelow45 =
      (if i = 0 then recessionScan S latitude longitude (floorToUTCDay startDate)
       else none) := by
  simp only [getVitaminDInfo, h]

theorem dayScan_some_of_vitaminDDate {S : SunCalcLib} {latitude longitude : ℚ}
    {startDate : Instant} {d : Instant}
    (h : (getVitaminDInfo S latitude longitude startDate).vitaminDDate = some d) :
    dayScanResult S latitude longitude (floorToUTCDay startDate) =
        some (getVitaminDInfo S latitude longitude startDate).daysUntilVitaminD ∧
      d = addDays (floorToUTCDay startDate)
        ((getVitaminDInfo S latitude longitude startDate).daysUntilVitaminD : Int) := by
  cases hscan : dayScanResult S latitude longitude (floorToUTCDay startDate) with
  | none => rw [getVitaminDInfo_of_dayScan_none hscan] at h; exact absurd h (by simp)
  | some i =>
      rw [vitaminDDate_of_dayScan_some hscan] at h
      rw [daysUntil_of_dayScan_some hscan]
      exact ⟨rfl, (Option.some.inj h).symm⟩

theorem floorToUTCDay_addDays_floor (t : Instant) (k : Int) :
    floorToUTCDay (addDays (floorToUTCDay t) k) = addDays (floorToUTCDay t) k := by
  unfold floorToUTCDay addDays
  show msPerDay * ((msPerDay * (t / msPerDay) + k * msPerDay) / msPerDay)
      = msPerDay * (t / msPerDay) + k * msPerDay
  have h : msPerDay * (t / msPerDay) + k * msPerDay
      = (t / msPerDay + k) * msPerDay := by ring
  rw [h, Int.mul_ediv_cancel _ (by decide : msPerDay ≠ 0)]
  ring

theorem floorToUTCDay_add_msPerDay (t : Instant) :
    floorToUTCDay (t + msPerDay) = floorToUTCDay t + msPerDay := by
  unfold floorToUTCDay
  show msPerDay * ((t + msPerDay) / msPerDay) = msPerDay * (t / msPerDay) + msPerDay
  have h : t + msPerDay = t + 1 * msPerDay := by ring
  rw [h, Int.add_mul_ediv_right _ _ (by decide : msPerDay ≠ 0)]
  ring

/-! ## Concrete instances of the library model, used to evaluate the
theorems at concrete inputs -/

/-- A library model whose `getTimes` never resolves any event and whose
altitude is identically 0. -/
def flatSun : SunCalcLib :=
  ⟨fun _ _ _ => ⟨none, none, none⟩, fun _ _ _ => 0, by intro t lat lng; norm_num⟩

/-- A library model with solar noon at 12:00 UTC of every day and altitude
identically 50 degrees. -/
def brightSun : SunCalcLib :=
  ⟨fun day _ _ => ⟨some (day + 43200000), none, none⟩, fun _ _ _ => 50,
    by intro t lat lng; norm_num⟩

theorem minuteAbove45_true_iff {S : SunCalcLib} {latitude longitude : ℚ}
    {startOfDay : Instant} {m : Nat} :
    minuteAbove45 S latitude longitude startOfDay m = true ↔
      45 ≤ S.altitudeDeg (startOfDay + (m : Int) * msPerMinute) latitude longitude := by
  simp [minuteAbove45]

theorem minuteAbove45_false_iff {S : SunCalcLib} {latitude longitude : ℚ}
    {startOfDay : Instant} {m : Nat} :
    minuteAbove45 S latitude longitude startOfDay m = false ↔
      S.altitudeDeg (startOfDay + (m : Int) * msPerMinute) latitude longitude < 45 := by
  simp [minuteAbove45, not_le]

/-! ## C1 -/

/-- C1: if no day offset `i` in 0..365 has a solar-noon altitude of at least
45 degrees (in particular on days whose solar noon is unresolved), then
`getVitaminDInfo` returns `vitaminDDate = none`, `daysUntilVitaminD = 0`,
and `startTimeAbove45`, `endTimeAbove45`, `durationAbove45` and
`daysUntilBelow45` all `none`. -/
theorem getVitaminDInfo_thresholdNeverReached (S : SunCalcLib) (latitude longitude : ℚ)
    (startDate : Instant)
    (h : ∀ i < 366, noonQualifies S latitude longitude
      (addDays (floorToUTCDay startDate) (i : Int)) = false) :
    getVitaminDInfo S latitude longitude startDate = ⟨none, 0, none, none, none, none⟩ := by
  apply getVitaminDInfo_of_dayScan_none
  unfold dayScanResult
  rw [findFirst_eq_none]
  intro k _ hk
  exact h k (by omega)

/-- Witness for C1 at a concrete library model and input. -/
theorem getVitaminDInfo_thresholdNeverReached_witness :
    getVitaminDInfo flatSun 0 0 0 = ⟨none, 0, none, none, none, none⟩ :=
  getVitaminDInfo_thresholdNeverReached flatSun 0 0 0 (fun _ _ => rfl)

/-! ## C2 -/

/-- The conclusion of C2: the day scan selected the smallest qualifying
offset under the inclusive comparison `45 ≤ altitude`, and the minute scan
recorded the first and the last minute of the UTC day of `d` whose altitude
is `≥ 45` (again inclusive). -/
def InclusiveThresholdSpec (S : SunCalcLib) (latitude longitude : ℚ)
    (startDate d : Instant) : Prop :=
  (∃ noon,
      (S.getTimes (addDays (floorToUTCDay startDate)
          ((getVitaminDInfo S latitude longitude startDate).daysUntilVitaminD : Int))
        latitude longitude).solarNoon = some noon ∧
      45 ≤ S.altitudeDeg noon latitude longitude) ∧
  (getVitaminDInfo S latitude longitude startDate).daysUntilVitaminD < 366 ∧
  (∀ j < (getVitaminDInfo S latitude longitude startDate).daysUntilVitaminD, ∀ noon,
      (S.getTimes (addDays (floorToUTCDay startDate) (j : Int)) latitude longitude).solarNoon
        = some noon →
      S.altitudeDeg noon latitude longitude < 45) ∧
  (∀ t, (getVitaminDInfo S latitude longitude startDate).startTimeAbove45 = some t →
      ∃ m : Nat, m < 1440 ∧ t = floorToUTCDay d + (m : Int) * msPerMinute ∧
        45 ≤ S.altitudeDeg t latitude longitude ∧
        ∀ k : Nat, k < m → S.altitudeDeg (floorToUTCDay d + (k : Int) * msPerMinute)
          latitude longitude < 45) ∧
  (∀ t, (getVitaminDInfo S latitude longitude startDate).endTimeAbove45 = some t →
      ∃ m : Nat, m < 1440 ∧ t = floorToUTCDay d + (m : Int) * msPerMinute ∧
        45 ≤ S.altitudeDeg t latitude longitude ∧
        ∀ k : Nat, m < k → k < 1440 →
          S.altitudeDeg (floorToUTCDay d + (k : Int) * msPerMinute) latitude longitude < 45)

/-- C2: both scans of `getVitaminDInfo` compare against the threshold with
an inclusive `≥ 45`: whenever a threshold date `d` is returned, its offset
is the smallest day offset whose noon altitude is at least 45 (every
earlier day's noon altitude is strictly below 45), and the recorded window
start (resp. end) is the first (resp. last) minute of the UTC day of `d`
whose altitude is at least 45. -/
theorem getVitaminDInfo_inclusiveThreshold (S : SunCalcLib) (latitude longitude : ℚ)
    (startDate d : Instant)
    (hd : (getVitaminDInfo S latitude longitude startDate).vitaminDDate = some d) :
    InclusiveThresholdSpec S latitude longitude startDate d := by
  obtain ⟨hscan, hdd⟩ := dayScan_some_of_vitaminDDate hd
  have hchar := findFirst_eq_some.mp hscan
  obtain ⟨-, h2, h3, h4⟩ := hchar
  refine ⟨noonQualifies_true_iff.mp h3, by omega, ?_, ?_, ?_⟩
  · intro j hj noon hnoon
    exact noonQualifies_false_iff.mp (h4 j (Nat.zero_le j) hj) noon hnoon
  · intro t ht
    rw [startTime_of_dayScan_some hscan, Option.map_eq_some'] at ht
    obtain ⟨m, hm, hmt⟩ := ht
    obtain ⟨-, hm2, hm3, hm4⟩ := findFirst_eq_some.mp hm
    refine ⟨m, by omega, ?_, ?_, ?_⟩
    · rw [← hmt, hdd]
    · rw [← hmt]
      exact minuteAbove45_true_iff.mp hm3
    · intro k hk
      rw [hdd]
      exact minuteAbove45_false_iff.mp (hm4 k (Nat.zero_le k) hk)
  · intro t ht
    rw [endTime_of_dayScan_some hscan, Option.map_eq_some'] at ht
    obtain ⟨m, hm, hmt⟩ := ht
    obtain ⟨hm1, hm3, hm4⟩ := findLast_eq_some.mp hm
    refine ⟨m, hm1, ?_, ?_, ?_⟩
    · rw [← hmt, hdd]
    · rw [← hmt]
      exact minuteAbove45_true_iff.mp hm3
    · intro k hk1 hk2
      rw [hdd]
      exact minuteAbove45_false_iff.mp (hm4 k hk1 hk2)

/-- Witness for C2 at a concrete library model and input. -/
theorem getVitaminDInfo_inclusiveThreshold_witness :
    InclusiveThresholdSpec brightSun 0 0 0 0 :=
  getVitaminDInfo_inclusiveThreshold brightSun 0 0 0 0 (by decide)

/-! ## C10 -/

/-- C10: whenever `getVitaminDInfo` returns a threshold date `d`, it equals
the start date normalized to UTC midnight plus `daysUntilVitaminD` days;
and whenever both window bounds are returned, the end is not earlier than
the start and both fall within the UTC day of `d` (at or after its UTC
midnight, before the next UTC midnight). -/
theorem getVitaminDInfo_dateInvariants (S : SunCalcLib) (latitude longitude : ℚ)
    (startDate d : Instant)
    (hd : (getVitaminDInfo S latitude longitude startDate).vitaminDDate = some d) :
    d = addDays (floorToUTCDay startDate)
        ((getVitaminDInfo S latitude longitude startDate).daysUntilVitaminD : Int) ∧
    ∀ s e, (getVitaminDInfo S latitude longitude startDate).startTimeAbove45 = some s →
      (getVitaminDInfo S latitude longitude startDate).endTimeAbove45 = some e →
      s ≤ e ∧ floorToUTCDay d ≤ s ∧ e < floorToUTCDay d + msPerDay := by
  obtain ⟨hscan, hdd⟩ := dayScan_some_of_vitaminDDate hd
  refine ⟨hdd, ?_⟩
  intro s e hs he
  rw [startTime_of_dayScan_some hscan, Option.map_eq_some'] at hs
  rw [endTime_of_dayScan_some hscan, Option.map_eq_some'] at he
  obtain ⟨a, ha, has⟩ := hs
  obtain ⟨b, hb, hbs⟩ := he
  obtain ⟨-, ha2, ha3, ha4⟩ := findFirst_eq_some.mp ha
  obtain ⟨hb1, hb3, hb4⟩ := findLast_eq_some.mp hb
  have hab : a ≤ b := by
    by_contra hc
    rw [hb4 a (by omega) (by omega)] at ha3
    exact Bool.false_ne_true ha3
  have hSD := floorToUTCDay_addDays_floor startDate
    ((getVitaminDInfo S latitude longitude startDate).daysUntilVitaminD : Int)
  have hab2 : (a : Int) ≤ (b : Int) := by exact_mod_cast hab
  have ha0 : (0 : Int) ≤ (a : Int) := by positivity
  have hb2 : (b : Int) < 1440 := by exact_mod_cast hb1
  refine ⟨?_, ?_, ?_⟩
  · rw [← has, ← hbs]
    simp only [msPerMinute]
    linarith
  · rw [hdd, hSD, ← has, hSD]
    simp only [msPerMinute]
    linarith
  · rw [hdd, hSD, ← hbs, hSD]
    simp only [msPerMinute, msPerDay]
    linarith

/-- Witness for C10 at a concrete library model and input. -/
theorem getVitaminDInfo_dateInvariants_witness :
    (0 : Instant) = addDays (floorToUTCDay (0 : Instant))
        ((getVitaminDInfo brightSun 0 0 0).daysUntilVitaminD : Int) ∧
    ∀ s e, (getVitaminDInfo brightSun 0 0 0).startTimeAbove45 = some s →
      (getVitaminDInfo brightSun 0 0 0).endTimeAbove45 = some e →
      s ≤ e ∧ floorToUTCDay (0 : Instant) ≤ s ∧
        e < floorToUTCDay (0 : Instant) + msPerDay :=
  getVitaminDInfo_dateInvariants brightSun 0 0 0 0 (by decide)

/-! ## C3 -/

/-- The altitude profile of the C3 counterexample: 50 degrees at the noon
instants of scan day 0 and scan day 3, 0 degrees elsewhere. -/
def c3Alt (t : Instant) : ℚ :=
  if t = 43200000 then 50 else if t = 302400000 then 50 else 0

theorem c3Alt_bounded (t : Instant) : |c3Alt t| ≤ 90 := by
  unfold c3Alt
  split
  · norm_num
  · split <;> norm_num

/-- A library model realizing an autumn-like profile: noon at 12:00 UTC of
every day, altitude above 45 on days 0 and 3 of the epoch and below 45 on
days 1 and 2. -/
def c3Sun : SunCalcLib :=
  ⟨fun day _ _ => ⟨some (day + 43200000), none, none⟩, fun t _ _ => c3Alt t,
    fun t _ _ => c3Alt_bounded t⟩

/-- C3 fails on the code: with `c3Sun` the threshold is reached within the
horizon from both start date 0 and start date 0 + 1 day, the two
`daysUntilVitaminD` values are 0 and 2, and they neither differ by exactly
1 nor are both 0 (the threshold is active on the first day but not the
second, the case the claim's exception does not cover). -/
theorem daysUntilMonotonicity_cex :
    (getVitaminDInfo c3Sun 0 0 0).vitaminDDate.isSome = true ∧
    (getVitaminDInfo c3Sun 0 0 msPerDay).vitaminDDate.isSome = true ∧
    (getVitaminDInfo c3Sun 0 0 0).daysUntilVitaminD = 0 ∧
    (getVitaminDInfo c3Sun 0 0 msPerDay).daysUntilVitaminD = 2 ∧
    ¬((getVitaminDInfo c3Sun 0 0 msPerDay).daysUntilVitaminD + 1
        = (getVitaminDInfo c3Sun 0 0 0).daysUntilVitaminD ∨
      (getVitaminDInfo c3Sun 0 0 0).daysUntilVitaminD + 1
        = (getVitaminDInfo c3Sun 0 0 msPerDay).daysUntilVitaminD ∨
      ((getVitaminDInfo c3Sun 0 0 0).daysUntilVitaminD = 0 ∧
        (getVitaminDInfo c3Sun 0 0 msPerDay).daysUntilVitaminD = 0)) := by
  decide

theorem addDays_zero (t : Instant) : addDays t 0 = t := by
  unfold addDays; ring

theorem addDays_shift (t : Instant) (k : Nat) :
    addDays (t + msPerDay) (k : Int) = addDays t ((k + 1 : Nat) : Int) := by
  unfold addDays
  push_cast
  ring

/-- C3 amended: when the day scan from start date `D` finds the threshold
at offset `n ≥ 1`, the scan from `D + 1` day finds it at `n - 1` (the
values differ by exactly 1); when the threshold is active on both the
start day and the following day, both calls return 0.  In the remaining
case — active on the start day, inactive on the next — the claim fails:
the second value is the offset of the next qualifying day and can exceed
1 (see the counterexample). -/
theorem daysUntilMonotonicity_amended (S : SunCalcLib) (latitude longitude : ℚ)
    (startDate : Instant) :
    ((getVitaminDInfo S latitude longitude startDate).vitaminDDate.isSome = true →
      1 ≤ (getVitaminDInfo S latitude longitude startDate).daysUntilVitaminD →
      (getVitaminDInfo S latitude longitude (startDate + msPerDay)).daysUntilVitaminD
        = (getVitaminDInfo S latitude longitude startDate).daysUntilVitaminD - 1) ∧
    (noonQualifies S latitude longitude (floorToUTCDay startDate) = true →
      noonQualifies S latitude longitude (floorToUTCDay startDate + msPerDay) = true →
      (getVitaminDInfo S latitude longitude startDate).daysUntilVitaminD = 0 ∧
      (getVitaminDInfo S latitude longitude (startDate + msPerDay)).daysUntilVitaminD
        = 0) := by
  constructor
  · intro hsome hn
    obtain ⟨d, hd⟩ := Option.isSome_iff_exists.mp hsome
    obtain ⟨hscan, -⟩ := dayScan_some_of_vitaminDDate hd
    obtain ⟨-, h2, h3, h4⟩ := findFirst_eq_some.mp hscan
    have hscan2 : dayScanResult S latitude longitude
        (floorToUTCDay (startDate + msPerDay)) =
        some ((getVitaminDInfo S latitude longitude startDate).daysUntilVitaminD - 1) := by
      unfold dayScanResult
      rw [floorToUTCDay_add_msPerDay]
      rw [findFirst_eq_some]
      refine ⟨Nat.zero_le _, by omega, ?_, ?_⟩
      · rw [addDays_shift]
        have heq : (getVitaminDInfo S latitude longitude startDate).daysUntilVitaminD
            - 1 + 1 = (getVitaminDInfo S latitude longitude startDate).daysUntilVitaminD :=
          by omega
        rw [heq]
        exact h3
      · intro k _ hk
        rw [addDays_shift]
        exact h4 (k + 1) (Nat.zero_le _) (by omega)
    exact daysUntil_of_dayScan_some hscan2
  · intro hq0 hq1
    have hscan : dayScanResult S latitude longitude (floorToUTCDay startDate) = some 0 := by
      unfold dayScanResult
      rw [findFirst_eq_some]
      refine ⟨le_rfl, by omega, ?_, fun k hk1 hk2 => absurd hk2 (by omega)⟩
      rw [Nat.cast_zero, addDays_zero]
      exact hq0
    have hscan2 : dayScanResult S latitude longitude
        (floorToUTCDay (startDate + msPerDay)) = some 0 := by
      unfold dayScanResult
      rw [floorToUTCDay_add_msPerDay, findFirst_eq_some]
      refine ⟨le_rfl, by omega, ?_, fun k hk1 hk2 => absurd hk2 (by omega)⟩
      rw [Nat.cast_zero, addDays_zero]
      exact hq1
    exact ⟨daysUntil_of_dayScan_some hscan, daysUntil_of_dayScan_some hscan2⟩

/-- Witness for the amended C3 at a concrete library model and input. -/
theorem daysUntilMonotonicity_amended_witness :
    (getVitaminDInfo brightSun 0 0 0).daysUntilVitaminD = 0 ∧
    (getVitaminDInfo brightSun 0 0 (0 + msPerDay)).daysUntilVitaminD = 0 :=
  (daysUntilMonotonicity_amended brightSun 0 0 0).2 (by decide) (by decide)

/-! ## C5 -/

set_option maxRecDepth 4000 in
/-- C5 fails on the code in the never-reached case: with `flatSun` the day
scan finds nothing, so `daysUntilVitaminD = 0` while the recession scan is
skipped (`daysUntilBelow45 = none`) even though day 1 is strictly below
the threshold, contradicting "in that case `daysUntilBelow45` equals the
smallest `i ≥ 1` whose noon altitude is below 45". -/
theorem daysUntilBelow45_cex :
    (getVitaminDInfo flatSun 0 0 0).daysUntilVitaminD = 0 ∧
    highestFutureAngle flatSun 0 0 (addDays (floorToUTCDay 0) 1) < 45 ∧
    (getVitaminDInfo flatSun 0 0 0).daysUntilBelow45 = none := by
  refine ⟨by decide, by decide, by decide⟩

/-- The amended conclusion of C5: `daysUntilBelow45` is populated only when
the day scan succeeded at offset 0 (`vitaminDDate` non-null and
`daysUntilVitaminD = 0`); in that case it is the smallest `i ≥ 1`
(`i < 366`) whose `highestFutureAngle` — the noon altitude, 0 when solar
noon is unresolved — is strictly below 45, and null when no such day
exists in the horizon. -/
def DaysUntilEndSpec (S : SunCalcLib) (latitude longitude : ℚ) (startDate : Instant) :
    Prop :=
  (∀ j : Nat, (getVitaminDInfo S latitude longitude startDate).daysUntilBelow45 = some j →
      (getVitaminDInfo S latitude longitude startDate).daysUntilVitaminD = 0 ∧
      (getVitaminDInfo S latitude longitude startDate).vitaminDDate.isSome = true) ∧
  ((getVitaminDInfo S latitude longitude startDate).vitaminDDate.isSome = true →
    (getVitaminDInfo S latitude longitude startDate).daysUntilVitaminD = 0 →
    (∀ j : Nat,
        (getVitaminDInfo S latitude longitude startDate).daysUntilBelow45 = some j ↔
        (1 ≤ j ∧ j < 366 ∧
          highestFutureAngle S latitude longitude
            (addDays (floorToUTCDay startDate) (j : Int)) < 45 ∧
          ∀ k : Nat, 1 ≤ k → k < j →
            ¬ highestFutureAngle S latitude longitude
              (addDays (floorToUTCDay startDate) (k : Int)) < 45)) ∧
    ((getVitaminDInfo S latitude longitude startDate).daysUntilBelow45 = none ↔
        ∀ j : Nat, 1 ≤ j → j < 366 →
          ¬ highestFutureAngle S latitude longitude
            (addDays (floorToUTCDay startDate) (j : Int)) < 45))

/-- C5 amended: as the claim states, except that the recession-scan
characterization holds only when the threshold date is non-null (when the
threshold is never reached, `daysUntilVitaminD` is also 0 yet
`daysUntilBelow45` stays null — see the counterexample). -/
theorem daysUntilBelow45_amended (S : SunCalcLib) (latitude longitude : ℚ)
    (startDate : Instant) : DaysUntilEndSpec S latitude longitude startDate := by
  constructor
  · intro j hj
    cases hscan : dayScanResult S latitude longitude (floorToUTCDay startDate) with
    | none =>
        rw [getVitaminDInfo_of_dayScan_none hscan] at hj
        exact absurd hj (by simp)
    | some i =>
        rw [daysUntilBelow_of_dayScan_some hscan] at hj
        by_cases hi : i = 0
        · subst hi
          rw [daysUntil_of_dayScan_some hscan, vitaminDDate_of_dayScan_some hscan]
          exact ⟨rfl, rfl⟩
        · rw [if_neg hi] at hj
          exact absurd hj (by simp)
  · intro hsome h0
    obtain ⟨d, hd⟩ := Option.isSome_iff_exists.mp hsome
    obtain ⟨hscan, -⟩ := dayScan_some_of_vitaminDDate hd
    rw [h0] at hscan
    have hbelow := daysUntilBelow_of_dayScan_some hscan
    rw [if_pos rfl] at hbelow
    constructor
    · intro j
      rw [hbelow]
      unfold recessionScan
      rw [findFirst_eq_some]
      constructor
      · rintro ⟨hj1, hj2, hj3, hj4⟩
        refine ⟨hj1, by omega, of_decide_eq_true hj3, fun k hk1 hk2 => ?_⟩
        exact of_decide_eq_false (hj4 k hk1 hk2)
      · rintro ⟨hj1, hj2, hj3, hj4⟩
        exact ⟨hj1, by omega, decide_eq_true hj3,
          fun k hk1 hk2 => decide_eq_false (hj4 k hk1 hk2)⟩
    · rw [hbelow]
      unfold recessionScan
      rw [findFirst_eq_none]
      constructor
      · intro h j hj1 hj2
        exact of_decide_eq_false (h j hj1 (by omega))
      · intro h k hk1 hk2
        exact decide_eq_false (h k hk1 (by omega))

/-- Witness for the amended C5 at a concrete library model and input. -/
theorem daysUntilBelow45_amended_witness :
    (getVitaminDInfo brightSun 0 0 0).daysUntilBelow45 = none ↔
      ∀ j : Nat, 1 ≤ j → j < 366 →
        ¬ highestFutureAngle brightSun 0 0
          (addDays (floorToUTCDay 0) (j : Int)) < 45 :=
  ((daysUntilBelow45_amended brightSun 0 0 0).2 (by decide) (by decide)).2

/-! ## C4 -/

/-- The conclusion of C4: `dayLength` is total, equal to the formatted
sunrise-to-sunset difference when both are valid instants in order, and
otherwise `"24h 0m"` or `"0h 0m"` according to the sign of the reported
(2-decimal-rounded) noon altitude. -/
def DayLengthSpec (S : SunCalcLib) (latitude longitude : ℚ) (date : Instant) : Prop :=
  (∀ sunrise sunset,
      (S.getTimes date latitude longitude).sunrise = some sunrise →
      (S.getTimes date latitude longitude).sunset = some sunset →
      sunrise < sunset →
      (getSunStats S latitude longitude date).dayLength =
        fmtHM ((sunset - sunrise) / msPerHour)
          ((sunset - sunrise) % msPerHour / msPerMinute)) ∧
  ((¬ ∃ sunrise sunset,
      (S.getTimes date latitude longitude).sunrise = some sunrise ∧
      (S.getTimes date latitude longitude).sunset = some sunset ∧
      sunrise < sunset) →
    (getSunStats S latitude longitude date).dayLength =
      (if 0 < (getSunStats S latitude longitude date).highestSunAngle
       then "24h 0m" else "0h 0m"))

theorem getSunStats_dayLength_eq (S : SunCalcLib) (latitude longitude : ℚ)
    (date : Instant) :
    (getSunStats S latitude longitude date).dayLength =
      calculateDayLength (S.getTimes date latitude longitude)
        (getSunStats S latitude longitude date).highestSunAngle := by
  simp only [getSunStats]

/-- C4: for every location and date, `getSunStats` returns a `dayLength`
that is always defined: the formatted difference when sunrise and sunset
are valid with sunset after sunrise, and exactly `"24h 0m"` or `"0h 0m"`,
by the sign of the reported noon altitude, otherwise. -/
theorem getSunStats_dayLength_cases (S : SunCalcLib) (latitude longitude : ℚ)
    (date : Instant) : DayLengthSpec S latitude longitude date := by
  constructor
  · intro sunrise sunset hr hs hlt
    rw [getSunStats_dayLength_eq]
    unfold calculateDayLength
    rw [hr, hs]
    simp only [if_pos hlt]
  · intro hno
    rw [getSunStats_dayLength_eq]
    unfold calculateDayLength
    cases hr : (S.getTimes date latitude longitude).sunrise with
    | none => rfl
    | some sunrise =>
        cases hs : (S.getTimes date latitude longitude).sunset with
        | none => rfl
        | some sunset =>
            have hge : ¬ sunrise < sunset := fun hlt =>
              hno ⟨sunrise, sunset, hr, hs, hlt⟩
            simp only [if_neg hge]

/-- Witness for C4 at a concrete library model and input. -/
theorem getSunStats_dayLength_cases_witness :
    (getSunStats flatSun 0 0 0).dayLength = "0h 0m" := by
  have h := (getSunStats_dayLength_cases flatSun 0 0 0).2
    (by rintro ⟨r, s, hr, -, -⟩; simp [flatSun] at hr)
  have hangle : (getSunStats flatSun 0 0 0).highestSunAngle = 0 := by
    norm_num [getSunStats, flatSun, jsToFixed2, jsRound]
  rw [h, hangle, if_neg (lt_irrefl (0 : ℚ))]

/-! ## C7 -/

/-- C7: `getSubsolarPoint` returns as the subsolar longitude the offset in
hours between solar noon at longitude 0 and the given instant times 15
degrees per hour; only when that solar noon is unresolved does it fall
back to the naive `(12 - UTCHours) * 15` approximation.  (The subsolar
latitude is in both cases the altitude at the north pole, in degrees.) -/
theorem getSubsolarPoint_lngSpec (S : SunCalcLib) (date : Instant) :
    (∀ noon, (S.getTimes date 0 0).solarNoon = some noon →
      getSubsolarPoint S date =
        ⟨S.altitudeDeg date 90 0, ((noon - date : Int) : ℚ) / (1000 * 60 * 60) * 15⟩) ∧
    ((S.getTimes date 0 0).solarNoon = none →
      getSubsolarPoint S date =
        ⟨S.altitudeDeg date 90 0, (12 - jsUTCHours date) * 15⟩) := by
  constructor
  · intro noon h
    simp only [getSubsolarPoint, h]
  · intro h
    simp only [getSubsolarPoint, h]

/-- Witness for C7 at a concrete library model and input. -/
theorem getSubsolarPoint_lngSpec_witness :
    getSubsolarPoint flatSun 0 = ⟨0, 180⟩ := by
  have h := (getSubsolarPoint_lngSpec flatSun 0).2 rfl
  rw [h]
  have hz : jsUTCHours 0 = 0 := by
    norm_num [jsUTCHours, msPerDay, msPerHour, msPerMinute]
  rw [show flatSun.altitudeDeg 0 90 0 = 0 from rfl, hz]
  norm_num

/-! ## C9 -/

/-- The altitude profile of the C9 counterexample: 10 degrees before the
instant 2·10⁹ ms (mid-1970), 20 degrees from then on. -/
def c9Alt (t : Instant) : ℚ := if t < 2000000000 then 10 else 20

theorem c9Alt_bounded (t : Instant) : |c9Alt t| ≤ 90 := by
  unfold c9Alt
  split <;> norm_num

/-- A library model whose altitude changes over time (as the real sun's
does), with no resolved day events. -/
def c9Sun : SunCalcLib :=
  ⟨fun _ _ _ => ⟨none, none, none⟩, fun t _ _ => c9Alt t, fun t _ _ => c9Alt_bounded t⟩

/-- C9 fails on the code: `getYearlySunData` reads the ambient clock (it
has no year parameter), so two calls with identical latitude/longitude
arguments made at clock instants in different years (1970-01-01 and
1971-01-01) return different samples. -/
theorem getYearlySunData_clock_cex :
    getYearlySunData c9Sun 0 0 0 ≠ getYearlySunData c9Sun 0 0 (365 * msPerDay) := by
  decide

/-- C9 amended: every engine function is a pure mapping of its explicit
inputs together with, for `getYearlySunData` only, the ambient clock the
source reads via `new Date()`: the twelve monthly samples are determined
by latitude, longitude, and the clock's year, so two calls whose clock
reads fall in the same calendar year give equal results. -/
theorem getYearlySunData_yearDetermined (S : SunCalcLib) (latitude longitude : ℚ)
    (now now2 : Instant) (h : getUTCFullYear now = getUTCFullYear now2) :
    getYearlySunData S latitude longitude now
      = getYearlySunData S latitude longitude now2 := by
  unfold getYearlySunData
  rw [h]

/-- Witness for the amended C9 at a concrete library model and input. -/
theorem getYearlySunData_yearDetermined_witness :
    getYearlySunData flatSun 0 0 0 = getYearlySunData flatSun 0 0 msPerDay :=
  getYearlySunData_yearDetermined flatSun 0 0 0 msPerDay (by decide)

/-! ## C6 -/

/-- `clamp(x, -90, 90)` of the claim. -/
def clampLat (x : ℚ) : ℚ := min 90 (max (-90) x)

theorem getSubsolarPoint_lat (S : SunCalcLib) (t : Instant) :
    (getSubsolarPoint S t).lat = S.altitudeDeg t 90 0 := by
  unfold getSubsolarPoint
  cases h : (S.getTimes t 0 0).solarNoon <;> rfl

theorem localNoonDec_bounded (S : SunCalcLib) (startOfDay : Instant) (lng : ℚ) :
    |localNoonDec S startOfDay lng| ≤ 90 := by
  unfold localNoonDec
  rw [getSubsolarPoint_lat]
  exact S.alt_bounded _ _ _

/-- The bottom edge `Math.max(-90, dec - 45)` already equals the claim's
two-sided clamp, because the declination is an altitude in [-90, 90]. -/
theorem bandEdges_fst_eq_clamp (S : SunCalcLib) (startOfDay : Instant) (lng : ℚ) :
    (bandEdges S startOfDay lng).1 = clampLat (localNoonDec S startOfDay lng - 45) := by
  obtain ⟨h1, h2⟩ := abs_le.mp (localNoonDec_bounded S startOfDay lng)
  unfold bandEdges clampLat
  exact (min_eq_right (max_le (by norm_num) (by linarith))).symm

/-- The top edge `Math.min(90, dec + 45)` already equals the claim's
two-sided clamp. -/
theorem bandEdges_snd_eq_clamp (S : SunCalcLib) (startOfDay : Instant) (lng : ℚ) :
    (bandEdges S startOfDay lng).2 = clampLat (localNoonDec S startOfDay lng + 45) := by
  obtain ⟨h1, h2⟩ := abs_le.mp (localNoonDec_bounded S startOfDay lng)
  unfold bandEdges clampLat
  rw [max_eq_right (by linarith : (-90 : ℚ) ≤ localNoonDec S startOfDay lng + 45)]

/-- With the 2-degree resolution the longitude sweep ends exactly at 180,
so the source's "ensure we hit exactly 180" push never runs. -/
theorem ensure180Missing_eq_false (S : SunCalcLib) (startOfDay : Instant) :
    ensure180Missing S startOfDay = false := by
  unfold ensure180Missing
  rw [List.getLast?_map, show sampleLngs.getLast? = some 180 from by decide]
  simp

theorem area_bottomBoundary_eq (S : SunCalcLib) (date : Instant) :
    (getVitaminDAreaGeoJSON S date).bottomBoundary =
      sampleLngs.map
        (fun (lng : Int) => ((lng : ℚ), (bandEdges S (floorToUTCDay date) (lng : ℚ)).1)) := by
  simp only [getVitaminDAreaGeoJSON, ensure180Missing_eq_false, Bool.false_eq_true,
    if_false, List.append_nil]

theorem area_topBoundary_eq (S : SunCalcLib) (date : Instant) :
    (getVitaminDAreaGeoJSON S date).topBoundary =
      sampleLngs.map
        (fun (lng : Int) => ((lng : ℚ), (bandEdges S (floorToUTCDay date) (lng : ℚ)).2)) := by
  simp only [getVitaminDAreaGeoJSON, ensure180Missing_eq_false, Bool.false_eq_true,
    if_false, List.append_nil]

theorem area_fillRing_eq (S : SunCalcLib) (date : Instant) :
    (getVitaminDAreaGeoJSON S date).fillRing =
      (getVitaminDAreaGeoJSON S date).bottomBoundary ++
        (getVitaminDAreaGeoJSON S date).topBoundary.reverse ++
        [(getVitaminDAreaGeoJSON S date).bottomBoundary.headD (0, 0)] := by
  simp only [getVitaminDAreaGeoJSON]

theorem headD_mem {α : Type} {l : List α} (h : l ≠ []) (d : α) : l.headD d ∈ l := by
  cases l with
  | nil => exact absurd rfl h
  | cons a as => simp [List.headD]

/-- C6: every coordinate of the fill polygon and of the two boundary lines
of `getVitaminDAreaGeoJSON` lies, for some sampled longitude, on that
longitude's bottom edge `clamp(dec - 45, -90, 90)` or top edge
`clamp(dec + 45, -90, 90)`, where `dec` is the subsolar declination at the
longitude's local solar noon as computed via the day-event solver at
latitude 0 (`localNoonDec`). -/
theorem vitaminDArea_edges (S : SunCalcLib) (date : Instant) (p : ℚ × ℚ)
    (hp : p ∈ (getVitaminDAreaGeoJSON S date).fillRing ∨
          p ∈ (getVitaminDAreaGeoJSON S date).bottomBoundary ∨
          p ∈ (getVitaminDAreaGeoJSON S date).topBoundary) :
    ∃ lng ∈ sampleLngs,
      p = ((lng : ℚ), clampLat (localNoonDec S (floorToUTCDay date) (lng : ℚ) - 45)) ∨
      p = ((lng : ℚ), clampLat (localNoonDec S (floorToUTCDay date) (lng : ℚ) + 45)) := by
  have hbot : ∀ q, q ∈ (getVitaminDAreaGeoJSON S date).bottomBoundary →
      ∃ lng ∈ sampleLngs,
        q = ((lng : ℚ), clampLat (localNoonDec S (floorToUTCDay date) (lng : ℚ) - 45)) ∨
        q = ((lng : ℚ), clampLat (localNoonDec S (floorToUTCDay date) (lng : ℚ) + 45)) := by
    intro q hq
    rw [area_bottomBoundary_eq, List.mem_map] at hq
    obtain ⟨lng, hlng, hql⟩ := hq
    refine ⟨lng, hlng, Or.inl ?_⟩
    rw [← hql, bandEdges_fst_eq_clamp]
  have htop : ∀ q, q ∈ (getVitaminDAreaGeoJSON S date).topBoundary →
      ∃ lng ∈ sampleLngs,
        q = ((lng : ℚ), clampLat (localNoonDec S (floorToUTCDay date) (lng : ℚ) - 45)) ∨
        q = ((lng : ℚ), clampLat (localNoonDec S (floorToUTCDay date) (lng : ℚ) + 45)) := by
    intro q hq
    rw [area_topBoundary_eq, List.mem_map] at hq
    obtain ⟨lng, hlng, hql⟩ := hq
    refine ⟨lng, hlng, Or.inr ?_⟩
    rw [← hql, bandEdges_snd_eq_clamp]
  rcases hp with hp | hp | hp
  · rw [area_fillRing_eq] at hp
    rcases List.mem_append.mp hp with hp2 | hp2
    · rcases List.mem_append.mp hp2 with hp3 | hp3
      · exact hbot p hp3
      · exact htop p (List.mem_reverse.mp hp3)
    · have hne : (getVitaminDAreaGeoJSON S date).bottomBoundary ≠ [] := by
        rw [area_bottomBoundary_eq]
        simp only [ne_eq, List.map_eq_nil_iff]
        decide
      have hhead := headD_mem hne ((0 : ℚ), (0 : ℚ))
      rw [List.mem_singleton.mp hp2]
      exact hbot _ hhead
  · exact hbot p hp
  · exact htop p hp

/-- Witness for C6 at a concrete library model and input: the first bottom
point of the sweep. -/
theorem vitaminDArea_edges_witness :
    ∃ lng ∈ sampleLngs,
      (((-180 : Int) : ℚ), (bandEdges flatSun (floorToUTCDay 0) ((-180 : Int) : ℚ)).1)
        = ((lng : ℚ), clampLat (localNoonDec flatSun (floorToUTCDay 0) (lng : ℚ) - 45)) ∨
      (((-180 : Int) : ℚ), (bandEdges flatSun (floorToUTCDay 0) ((-180 : Int) : ℚ)).1)
        = ((lng : ℚ), clampLat (localNoonDec flatSun (floorToUTCDay 0) (lng : ℚ) + 45)) :=
  vitaminDArea_edges flatSun 0
    (((-180 : Int) : ℚ), (bandEdges flatSun (floorToUTCDay 0) ((-180 : Int) : ℚ)).1)
    (Or.inr (Or.inl (by
      rw [area_bottomBoundary_eq]
      exact List.mem_map_of_mem _ (by decide))))

end VitaminD
